import Mathlib

/-!
Shallow embedding of the maritime CII optimizer (src/server/optimizer.py).

Modelling conventions:
* Python floats are modelled as exact rationals; the positive-infinity
  sentinel float('inf') returned by calculate_cii on zero transport work is
  an explicit constructor of CIIVal.
* Python round(x, 2) is banker's rounding (round half to even) embedded as
  roundHalfEven / round2; round(inf, 2) = inf is CIIVal.round2v.
* The scipy differential_evolution call is external library code.  It is
  modelled as a function argument of type DEFun that receives the fixed
  configuration the source passes (maxiter = 100, seed = 42,
  atol = tol = 0.01, recorded in deConfig), the objective and the bounds
  that optimize_cii builds, and returns a point plus a success flag;
  DERespectsBounds is scipy's documented contract that the returned point
  lies inside the (well-ordered) bounds.
* calculate_required_cii multiplies baseline.a by capacity ** (-baseline.c),
  a transcendental real power; its (finite) value enters optimize_cii as the
  explicit argument required_cii, exactly as the source threads the value of
  self.calculate_required_cii through the rest of optimize_cii.  The lookup
  tables CII_BASELINES and CII_REDUCTION_FACTORS are embedded for reference.
* The free-text description fields (Python f-strings) and the presentational
  improvement percentages, which no claim mentions and which would drag IEEE
  NaN corner cases into the model, are elided from the embedded records; all
  other dictionary keys are kept, with Option marking keys that are absent
  on one of the two return paths.
* Division by zero (a Python ZeroDivisionError, e.g. get_cii_rating with
  required_cii = 0) is total in the rational embedding; every theorem below
  supplies the positivity hypotheses that keep the embedding on the source's
  non-raising paths.
-/

/-- Value of a CII computation: a finite rational, or the positive-infinity
sentinel that calculate_cii returns when transport work is zero. -/
inductive CIIVal where
  | fin (q : ℚ)
  | inf
  deriving DecidableEq, Repr

/-- Python float strict comparison restricted to the values that occur here:
finite against finite, and the positive-infinity sentinel. -/
def CIIVal.ltb : CIIVal → CIIVal → Bool
  | .fin a, .fin b => decide (a < b)
  | .fin _, .inf => true
  | .inf, _ => false

/-- Banker's rounding of a rational to the nearest integer (Python round with
no digits): half-way cases go to the even integer. -/
def roundHalfEven (x : ℚ) : ℤ :=
  if x - ⌊x⌋ < 1/2 then ⌊x⌋
  else if 1/2 < x - ⌊x⌋ then ⌊x⌋ + 1
  else if ⌊x⌋ % 2 = 0 then ⌊x⌋ else ⌊x⌋ + 1

/-- Python round(x, 2) on the rational embedding. -/
def round2 (x : ℚ) : ℚ := (roundHalfEven (x * 100) : ℚ) / 100

/-- Python round(x, 2) on a possibly-infinite CII value; round(inf, 2) = inf. -/
def CIIVal.round2v : CIIVal → CIIVal
  | .fin q => .fin (round2 q)
  | .inf => .inf

/-- Property of being a number with at most two decimal places. -/
def IsTwoDecimal (q : ℚ) : Prop := ∃ n : ℤ, q = (n : ℚ) / 100

/-- CO2 conversion factors table (tonnes CO2 per tonne fuel); a partial map,
with the default 3.114 applied at the lookup site in calculate_cii. -/
def CO2_FACTORS (fuel_type : String) : Option ℚ :=
  match fuel_type with
  | "HFO" => some 3.114
  | "MDO" => some 3.206
  | "MGO" => some 3.206
  | "LNG" => some 2.750
  | "Ammonia" => some 0.0
  | "Methanol" => some 1.375
  | "LPG" => some 3.000
  | _ => none

/-- CII baselines table: ship type to the pair (a, c) of regression
parameters; used only by calculate_required_cii, whose real-power formula is
not embedded (see the header comment). -/
def CII_BASELINES (ship_type : String) : Option (ℚ × ℚ) :=
  match ship_type with
  | "Bulk Carrier" => some (4745, 0.622)
  | "Oil Tanker" => some (5247, 0.610)
  | "Container Ship" => some (1984, 0.489)
  | "LNG Carrier" => some (9.827, 0)
  | "General Cargo" => some (31948, 0.792)
  | _ => none

/-- CII reduction factors by year; looked up with default 0.09. -/
def CII_REDUCTION_FACTORS (year : ℤ) : Option ℚ :=
  if 2023 ≤ year ∧ year ≤ 2040 then some ((5 + 2 * (year - 2023)) / 100)
  else none

/-- MaritimeOptimizer.calculate_cii: Carbon Intensity Indicator of an annual
operating point, with the positive-infinity sentinel on zero transport work. -/
def calculate_cii (fuel_consumption distance capacity : ℚ)
    (fuel_type : String) : CIIVal :=
  let cf := (CO2_FACTORS fuel_type).getD 3.114
  let co2_emissions := fuel_consumption * cf
  let transport_work := capacity * distance
  if transport_work = 0 then .inf
  else .fin (co2_emissions / transport_work * 1000000)

/-- MaritimeOptimizer.get_cii_rating: the rating letter from the ratio of
attained to required CII.  On the infinity sentinel the IEEE ratio is +inf
for positive required (every band test fails, hence E) and -inf for negative
required (the first test passes, hence A); required = 0 raises in Python and
is excluded by the hypotheses of every theorem below. -/
def get_cii_rating (attained_cii : CIIVal) (required_cii : ℚ) : String :=
  match attained_cii with
  | .inf => if 0 < required_cii then "E" else "A"
  | .fin a =>
    let ratio := a / required_cii
    if ratio ≤ 0.88 then "A"
    else if ratio ≤ 0.94 then "B"
    else if ratio ≤ 1.06 then "C"
    else if ratio ≤ 1.18 then "D"
    else "E"

/-- MaritimeOptimizer.get_target_cii_for_rating: the maximum CII value for a
target rating; a letter outside the threshold table defaults to A. -/
def get_target_cii_for_rating (required_cii : ℚ) (target_rating : String) : ℚ :=
  match target_rating with
  | "A" => required_cii * 0.88
  | "B" => required_cii * 0.94
  | "C" => required_cii * 1.06
  | "D" => required_cii * 1.18
  | _ => required_cii * 0.88

/-- Rating letters from worst to best, as in optimize_cii. -/
def rating_order : List String := ["E", "D", "C", "B", "A"]

/-- Target-rating resolution in optimize_cii: an explicit target is kept,
otherwise one level better than the current rating (capped at A). -/
def resolveTargetRating (target_rating : Option String)
    (current_rating : String) : String :=
  match target_rating with
  | some t => t
  | none => rating_order.getD (min (rating_order.indexOf current_rating + 1) 4) "A"

/-- Fixed configuration the source passes to differential_evolution. -/
structure DEConfig where
  maxiter : ℕ
  seed : ℕ
  atol : ℚ
  tol : ℚ
  deriving DecidableEq, Repr

/-- Arguments maxiter = 100, seed = 42, atol = 0.01, tol = 0.01 of the
differential_evolution call in optimize_cii. -/
def deConfig : DEConfig := { maxiter := 100, seed := 42, atol := 0.01, tol := 0.01 }

/-- Output of the differential_evolution call: the point result.x and the
convergence flag result.success. -/
structure DEResult where
  x1 : ℚ
  x2 : ℚ
  success : Bool
  deriving DecidableEq, Repr

/-- Shape of the external differential_evolution procedure: configuration,
objective, bounds (two closed intervals) to a result. -/
abbrev DEFun : Type :=
  DEConfig → ((ℚ × ℚ) → CIIVal) → ((ℚ × ℚ) × (ℚ × ℚ)) → DEResult

/-- Documented contract of differential_evolution: on well-ordered bounds the
returned point lies inside them. -/
def DERespectsBounds (DE : DEFun) : Prop :=
  ∀ cfg f b, b.1.1 ≤ b.1.2 → b.2.1 ≤ b.2.2 →
    b.1.1 ≤ (DE cfg f b).x1 ∧ (DE cfg f b).x1 ≤ b.1.2 ∧
    b.2.1 ≤ (DE cfg f b).x2 ∧ (DE cfg f b).x2 ≤ b.2.2

/-- Concrete bounds-respecting search procedure returning the low end of the
fuel interval and the high end of the distance interval (the true optimum of
the source's objective, and where differential_evolution's polishing step
lands); used to instantiate the external search in concrete runs. -/
def deLowFuelHighDist : DEFun :=
  fun _ _ b => { x1 := b.1.1, x2 := b.2.2, success := true }

/-- Objective function built inside optimize_cii: CII plus a soft penalty of
100 times the excess over the target CII. -/
def objective (capacity target_cii : ℚ) (fuel_type : String)
    (x : ℚ × ℚ) : CIIVal :=
  match calculate_cii x.1 x.2 capacity fuel_type with
  | .fin cii => .fin (cii + max 0 (cii - target_cii) * 100)
  | .inf => .inf

/-- Request field currentParams. -/
structure OperationalParams where
  annualFuelConsumption : ℚ
  distanceTraveled : ℚ
  fuelType : String
  deriving DecidableEq, Repr

/-- Request field shipInfo; shipType and year feed only
calculate_required_cii (see the header comment). -/
structure ShipInfo where
  shipType : String
  capacity : ℚ
  year : ℤ
  deriving DecidableEq, Repr

/-- Entry of the alternatives list of the fuel-switching recommendation (the
presentational improvement percentage is elided). -/
structure AltFuel where
  fuel : String
  cii : CIIVal
  rating : String
  deriving DecidableEq, Repr

/-- Recommendation dictionary; fromValue/toValue/unit are the from/to/unit
keys, absent on the fuel-switching recommendation, and alternatives is empty
except on the fuel-switching recommendation (the free-text description is
elided). -/
structure Recommendation where
  type : String
  title : String
  fromValue : Option ℚ
  toValue : Option ℚ
  unit : Option String
  impact : String
  suggestions : List String
  alternatives : List AltFuel
  deriving DecidableEq, Repr

/-- Fuel-reduction recommendation of optimize_cii. -/
def fuelReductionRec (currentFuel optimizedFuel : ℚ) : Recommendation :=
  { type := "fuel_reduction", title := "Reduce Fuel Consumption",
    fromValue := some (round2 currentFuel), toValue := some (round2 optimizedFuel),
    unit := some "tonnes", impact := "high",
    suggestions := ["Optimize speed (slow steaming)",
      "Improve hull maintenance and cleaning",
      "Optimize trim and ballast",
      "Use weather routing systems"],
    alternatives := [] }

/-- Distance-increase recommendation of optimize_cii. -/
def distanceIncreaseRec (currentDist optimizedDist : ℚ) : Recommendation :=
  { type := "distance_increase", title := "Optimize Route Efficiency",
    fromValue := some (round2 currentDist), toValue := some (round2 optimizedDist),
    unit := some "nautical miles", impact := "medium",
    suggestions := ["Optimize cargo capacity utilization",
      "Reduce ballast voyages",
      "Improve route planning"],
    alternatives := [] }

/-- Distance-reduction recommendation of optimize_cii. -/
def distanceReductionRec (currentDist optimizedDist : ℚ) : Recommendation :=
  { type := "distance_reduction", title := "Reduce Unnecessary Distance",
    fromValue := some (round2 currentDist), toValue := some (round2 optimizedDist),
    unit := some "nautical miles", impact := "medium",
    suggestions := ["Optimize port selection",
      "Improve route planning",
      "Reduce waiting times"],
    alternatives := [] }

/-- Fuel-switching recommendation of optimize_cii bundling the qualifying
alternatives. -/
def fuelSwitchingRec (alts : List AltFuel) : Recommendation :=
  { type := "fuel_switching", title := "Consider Alternative Fuels",
    fromValue := none, toValue := none, unit := none, impact := "high",
    suggestions := ["Evaluate LNG conversion feasibility",
      "Consider dual-fuel engines for new builds",
      "Assess methanol availability at ports"],
    alternatives := alts }

/-- Candidate alternative fuels of the fuel-switching loop. -/
def candidate_fuels : List String := ["LNG", "Methanol"]

/-- Current fuel types for which the fuel-switching evaluation runs. -/
def high_carbon_fuels : List String := ["HFO", "MDO", "MGO"]

/-- Python comparison of two characters, by code point. -/
def pyCharLt (a b : Char) : Bool := a.val < b.val

/-- Python lexicographic comparison of two character lists. -/
def pyStrLtAux : List Char → List Char → Bool
  | [], [] => false
  | [], _ :: _ => true
  | _ :: _, [] => false
  | a :: as, b :: bs =>
    if pyCharLt a b then true
    else if pyCharLt b a then false
    else pyStrLtAux as bs

/-- Python string comparison (lexicographic by code point), used by the
source to compare rating letters. -/
def pyStrLt (a b : String) : Bool := pyStrLtAux a.data b.data

/-- Inclusion test of the fuel-switching loop: the candidate rating at the
optimized point is strictly better (Python string comparison) than the
current rating, or it equals the target rating with a lower CII than the
optimized one. -/
def altQualifies (optimized_fuel optimized_distance capacity required_cii : ℚ)
    (current_rating target_rating : String) (optimized_cii : CIIVal)
    (fuel_type : String) : Bool :=
  let alt_cii := calculate_cii optimized_fuel optimized_distance capacity fuel_type
  let alt_rating := get_cii_rating alt_cii required_cii
  pyStrLt alt_rating current_rating ||
    (alt_rating == target_rating && alt_cii.ltb optimized_cii)

/-- Alternatives-list entry built by the fuel-switching loop. -/
def altEntry (optimized_fuel optimized_distance capacity required_cii : ℚ)
    (fuel_type : String) : AltFuel :=
  let alt_cii := calculate_cii optimized_fuel optimized_distance capacity fuel_type
  { fuel := fuel_type, cii := alt_cii.round2v,
    rating := get_cii_rating alt_cii required_cii }

/-- Alternative-fuels list of optimize_cii: the qualifying candidates in
candidate order. -/
def alternative_fuels (optimized_fuel optimized_distance capacity required_cii : ℚ)
    (current_rating target_rating : String) (optimized_cii : CIIVal) :
    List AltFuel :=
  (candidate_fuels.filter
      (altQualifies optimized_fuel optimized_distance capacity required_cii
        current_rating target_rating optimized_cii)).map
    (altEntry optimized_fuel optimized_distance capacity required_cii)

/-- Recommendation assembly of the search path of optimize_cii. -/
def searchRecommendations (p : OperationalParams) (capacity required_cii : ℚ)
    (current_rating target_rating : String) (de : DEResult) :
    List Recommendation :=
  let optimized_cii := calculate_cii de.x1 de.x2 capacity p.fuelType
  let fuel_reduction_pct :=
    (p.annualFuelConsumption - de.x1) / p.annualFuelConsumption * 100
  let fuelRecs :=
    if 1 < fuel_reduction_pct then [fuelReductionRec p.annualFuelConsumption de.x1]
    else []
  let distance_change_pct :=
    (de.x2 - p.distanceTraveled) / p.distanceTraveled * 100
  let distRecs :=
    if 1 < |distance_change_pct| then
      if 0 < distance_change_pct then [distanceIncreaseRec p.distanceTraveled de.x2]
      else [distanceReductionRec p.distanceTraveled de.x2]
    else []
  let alts :=
    if p.fuelType ∈ high_carbon_fuels then
      alternative_fuels de.x1 de.x2 capacity required_cii current_rating
        target_rating optimized_cii
    else []
  let switchRecs := if alts = [] then [] else [fuelSwitchingRec alts]
  fuelRecs ++ distRecs ++ switchRecs

/-- Result dictionary of optimize_cii.  message is present only on the
short-circuit path; achievedRating, optimizedCII and requiredCII only on the
search path (the presentational improvement percentage is elided). -/
structure OptimizeResult where
  success : Bool
  message : Option String
  currentRating : String
  targetRating : String
  achievedRating : Option String
  currentCII : CIIVal
  targetCII : ℚ
  optimizedCII : Option CIIVal
  requiredCII : Option ℚ
  recommendations : List Recommendation
  optimizedParams : OperationalParams
  deriving DecidableEq, Repr

/-- Short-circuit result of optimize_cii when the current rating is already A. -/
def aRatingResult (current_params : OperationalParams) (current_cii : CIIVal)
    (required_cii : ℚ) : OptimizeResult :=
  { success := true, message := some "Already at optimal A rating",
    currentRating := "A", targetRating := "A",
    achievedRating := none,
    currentCII := current_cii.round2v,
    targetCII := round2 (required_cii * 0.88),
    optimizedCII := none, requiredCII := none,
    recommendations := [], optimizedParams := current_params }

/-- Search call of optimize_cii: differential_evolution applied to the fixed
configuration, the penalty objective and the operational bounds (fuel may be
reduced up to 30 percent but not increased; distance may move up to 20
percent either way). -/
def searchDE (current_params : OperationalParams) (ship_info : ShipInfo)
    (target : String) (required_cii : ℚ) (DE : DEFun) : DEResult :=
  let target_cii := get_target_cii_for_rating required_cii target
  let fuel_min := current_params.annualFuelConsumption * 0.7
  let fuel_max := current_params.annualFuelConsumption * 1.0
  let dist_min := current_params.distanceTraveled * 0.8
  let dist_max := current_params.distanceTraveled * 1.2
  DE deConfig
    (objective ship_info.capacity target_cii current_params.fuelType)
    ((fuel_min, fuel_max), (dist_min, dist_max))

/-- Search-path result of optimize_cii: bounds construction, the external
search, and assembly of the result dictionary. -/
def searchPathResult (current_params : OperationalParams) (ship_info : ShipInfo)
    (current_cii : CIIVal) (current_rating target : String)
    (required_cii : ℚ) (DE : DEFun) : OptimizeResult :=
  let target_cii := get_target_cii_for_rating required_cii target
  let de := searchDE current_params ship_info target required_cii DE
  let optimized_cii := calculate_cii de.x1 de.x2 ship_info.capacity
    current_params.fuelType
  { success := de.success, message := none,
    currentRating := current_rating,
    targetRating := target,
    achievedRating := some (get_cii_rating optimized_cii required_cii),
    currentCII := current_cii.round2v,
    targetCII := round2 target_cii,
    optimizedCII := some optimized_cii.round2v,
    requiredCII := some (round2 required_cii),
    recommendations := searchRecommendations current_params ship_info.capacity
      required_cii current_rating target de,
    optimizedParams :=
      { annualFuelConsumption := round2 de.x1,
        distanceTraveled := round2 de.x2,
        fuelType := current_params.fuelType } }

/-- MaritimeOptimizer.optimize_cii.  required_cii is the value of
self.calculate_required_cii(shipType, capacity, year) (see the header
comment) and DE models the external differential_evolution procedure. -/
def optimize_cii (current_params : OperationalParams) (ship_info : ShipInfo)
    (target_rating : Option String) (required_cii : ℚ) (DE : DEFun) :
    OptimizeResult :=
  let current_cii := calculate_cii current_params.annualFuelConsumption
    current_params.distanceTraveled ship_info.capacity current_params.fuelType
  let current_rating := get_cii_rating current_cii required_cii
  let target := resolveTargetRating target_rating current_rating
  if current_rating = "A" then
    aRatingResult current_params current_cii required_cii
  else
    searchPathResult current_params ship_info current_cii current_rating target
      required_cii DE

/-- Rating classification written from the spec sentence: ratio at most 0.88
gives A, at most 0.94 gives B, at most 1.06 gives C, at most 1.18 gives D,
and E otherwise (band boundaries inclusive on the upper side). -/
def ratingSpec (attained required : ℚ) : String :=
  if attained / required ≤ 0.88 then "A"
  else if attained / required ≤ 0.94 then "B"
  else if attained / required ≤ 1.06 then "C"
  else if attained / required ≤ 1.18 then "D"
  else "E"

/-- Position of a rating letter in the ordered sequence A < B < C < D < E. -/
def ratingIdx (r : String) : ℕ :=
  match r with
  | "A" => 0
  | "B" => 1
  | "C" => 2
  | "D" => 3
  | "E" => 4
  | _ => 5

theorem roundHalfEven_sub_abs_le (x : ℚ) : |(roundHalfEven x : ℚ) - x| ≤ 1/2 := by
  have h1 : (⌊x⌋ : ℚ) ≤ x := Int.floor_le x
  have h2 : x < ⌊x⌋ + 1 := Int.lt_floor_add_one x
  unfold roundHalfEven
  split_ifs with ha hb hc
  · rw [abs_le]
    constructor <;> linarith
  · push_cast
    rw [abs_le]
    constructor <;> linarith
  · rw [abs_le]
    constructor <;> linarith
  · push_cast
    rw [abs_le]
    constructor <;> linarith

theorem round2_sub_abs_le (x : ℚ) : |round2 x - x| ≤ 1/200 := by
  have h := roundHalfEven_sub_abs_le (x * 100)
  unfold round2
  rw [abs_le] at h ⊢
  constructor <;> linarith

theorem round2_isTwoDecimal (x : ℚ) : IsTwoDecimal (round2 x) :=
  ⟨roundHalfEven (x * 100), rfl⟩

theorem get_cii_rating_mem_letters (a : CIIVal) (r : ℚ) :
    get_cii_rating a r ∈ (["A", "B", "C", "D", "E"] : List String) := by
  cases a with
  | inf =>
    dsimp only [get_cii_rating]
    split_ifs <;> simp
  | fin q =>
    dsimp only [get_cii_rating]
    split_ifs <;> simp

theorem pyStrLt_iff_ratingIdx :
    ∀ x ∈ (["A", "B", "C", "D", "E"] : List String),
      ∀ y ∈ (["A", "B", "C", "D", "E"] : List String),
      (pyStrLt x y = true ↔ ratingIdx x < ratingIdx y) := by decide

theorem optimize_cii_of_rating_A (p : OperationalParams) (s : ShipInfo)
    (t : Option String) (required : ℚ) (DE : DEFun)
    (hA : get_cii_rating (calculate_cii p.annualFuelConsumption
      p.distanceTraveled s.capacity p.fuelType) required = "A") :
    optimize_cii p s t required DE =
      aRatingResult p (calculate_cii p.annualFuelConsumption p.distanceTraveled
        s.capacity p.fuelType) required := by
  simp only [optimize_cii]
  rw [if_pos hA]

theorem optimize_cii_of_rating_ne_A (p : OperationalParams) (s : ShipInfo)
    (t : Option String) (required : ℚ) (DE : DEFun)
    (hA : get_cii_rating (calculate_cii p.annualFuelConsumption
      p.distanceTraveled s.capacity p.fuelType) required ≠ "A") :
    optimize_cii p s t required DE =
      searchPathResult p s
        (calculate_cii p.annualFuelConsumption p.distanceTraveled s.capacity
          p.fuelType)
        (get_cii_rating (calculate_cii p.annualFuelConsumption
          p.distanceTraveled s.capacity p.fuelType) required)
        (resolveTargetRating t
          (get_cii_rating (calculate_cii p.annualFuelConsumption
            p.distanceTraveled s.capacity p.fuelType) required))
        required DE := by
  simp only [optimize_cii]
  rw [if_neg hA]

theorem deLowFuelHighDist_respects : DERespectsBounds deLowFuelHighDist := by
  intro cfg f b h1 h2
  exact ⟨le_refl _, h1, h2, le_refl _⟩

/-- C1: for every attained at least 0 and required above 0, get_cii_rating
classifies by the ratio attained/required with band boundaries inclusive on
the upper side exactly as the spec states them (ratingSpec), and a ratio of
exactly one lands in the C band. -/
theorem cii_rating_bands :
    (∀ attained required : ℚ, 0 ≤ attained → 0 < required →
      get_cii_rating (.fin attained) required = ratingSpec attained required) ∧
    (∀ x : ℚ, 0 < x → get_cii_rating (.fin x) x = "C") := by
  constructor
  · intro a r _ _
    rfl
  · intro x hx
    simp only [get_cii_rating, div_self (ne_of_gt hx)]
    norm_num

theorem cii_rating_bands_witness :
    get_cii_rating (.fin 1) 2 = ratingSpec 1 2 ∧
    get_cii_rating (.fin 5) 5 = "C" :=
  ⟨cii_rating_bands.1 1 2 (by norm_num) (by norm_num),
   cii_rating_bands.2 5 (by norm_num)⟩

/-- C6: calculate_cii returns the positive-infinity sentinel (and, being a
total function, never raises) whenever capacity times distance is zero, and
the infinite attained value against any positive required CII rates E, the
worst rating. -/
theorem zero_transport_work_infinity :
    (∀ (fuel_consumption distance capacity : ℚ) (fuel_type : String),
      capacity * distance = 0 →
      calculate_cii fuel_consumption distance capacity fuel_type = .inf) ∧
    (∀ required : ℚ, 0 < required → get_cii_rating .inf required = "E") := by
  constructor
  · intro f d c ft h
    simp only [calculate_cii, if_pos h]
  · intro r hr
    simp only [get_cii_rating, if_pos hr]

theorem zero_transport_work_infinity_witness :
    calculate_cii 5 0 3 "MGO" = .inf ∧ get_cii_rating .inf 2 = "E" :=
  ⟨zero_transport_work_infinity.1 5 0 3 "MGO" (by norm_num),
   zero_transport_work_infinity.2 2 (by norm_num)⟩

/-- C7 counterexample: for fuelType Ammonia (CO2 factor 0) with capacity 1
and distance 1, calculate_cii is not strictly increasing in fuelConsumed:
it takes the same value, fin 0, at fuel 1 and fuel 2. -/
theorem cii_strict_mono_cex :
    calculate_cii 1 1 1 "Ammonia" = calculate_cii 2 1 1 "Ammonia" ∧
    (calculate_cii 1 1 1 "Ammonia").ltb (calculate_cii 2 1 1 "Ammonia") = false ∧
    (1 : ℚ) < 2 ∧ (0 : ℚ) < 1 := by
  have h1 : calculate_cii 1 1 1 "Ammonia" = .fin 0 := by
    norm_num [calculate_cii, CO2_FACTORS]
  have h2 : calculate_cii 2 1 1 "Ammonia" = .fin 0 := by
    norm_num [calculate_cii, CO2_FACTORS]
  refine ⟨h1.trans h2.symm, ?_, by norm_num, by norm_num⟩
  rw [h1, h2]
  exact decide_eq_false (lt_irrefl (0 : ℚ))

/-- C7 amended: for every fixed fuelType whose effective CO2 factor (table
value, or the default 3.114) is positive — every fuel type except Ammonia —
and fixed capacity above 0 and distance above 0, calculate_cii is strictly
increasing in fuelConsumed. -/
theorem cii_strict_mono_amended (fuel_type : String) (capacity distance f1 f2 : ℚ)
    (hc : 0 < capacity) (hd : 0 < distance)
    (hcf : 0 < (CO2_FACTORS fuel_type).getD 3.114) (hf : f1 < f2) :
    (calculate_cii f1 distance capacity fuel_type).ltb
      (calculate_cii f2 distance capacity fuel_type) = true := by
  have htw : capacity * distance ≠ 0 := by positivity
  have htwpos : 0 < capacity * distance := mul_pos hc hd
  simp only [calculate_cii, if_neg htw, CIIVal.ltb, decide_eq_true_eq]
  have hmul : f1 * (CO2_FACTORS fuel_type).getD 3.114 <
      f2 * (CO2_FACTORS fuel_type).getD 3.114 :=
    mul_lt_mul_of_pos_right hf hcf
  have hdiv := (div_lt_div_iff_of_pos_right htwpos).mpr hmul
  exact mul_lt_mul_of_pos_right hdiv (by norm_num)

theorem cii_strict_mono_amended_witness :
    (calculate_cii 1 2 3 "HFO").ltb (calculate_cii 2 2 3 "HFO") = true :=
  cii_strict_mono_amended "HFO" 3 2 1 2 (by norm_num) (by norm_num)
    (by norm_num [CO2_FACTORS]) (by norm_num)

/-- C9: optimize_cii is a pure function of the request fields, the required
CII and the search procedure; the source fixes the stochastic search's seed
(42), iteration cap (100) and tolerances (0.01) in deConfig, which is what
justifies modelling the search as a function, so two runs on identical
inputs return identical results. -/
theorem optimize_cii_deterministic (p p' : OperationalParams) (s s' : ShipInfo)
    (t t' : Option String) (r r' : ℚ) (DE DE' : DEFun)
    (hp : p = p') (hs : s = s') (ht : t = t') (hr : r = r') (hDE : DE = DE') :
    optimize_cii p s t r DE = optimize_cii p' s' t' r' DE' := by
  subst hp hs ht hr hDE
  rfl

theorem optimize_cii_deterministic_witness :
    optimize_cii ⟨1, 1, "HFO"⟩ ⟨"Bulk Carrier", 1, 2025⟩ none 1 deLowFuelHighDist =
      optimize_cii ⟨1, 1, "HFO"⟩ ⟨"Bulk Carrier", 1, 2025⟩ none 1 deLowFuelHighDist :=
  optimize_cii_deterministic _ _ _ _ _ _ _ _ _ _ rfl rfl rfl rfl rfl

/-- C10: for every positive required CII, get_target_cii_for_rating with the
letter E returns required times 0.88, the A-band threshold, because E has no
entry in the threshold table; consequently an explicit targetRating of E on
the search path reports targetCII at the A ceiling. -/
theorem target_rating_E_defaults_to_A :
    (∀ required : ℚ, 0 < required →
      get_target_cii_for_rating required "E" = required * 0.88) ∧
    (∀ (p : OperationalParams) (s : ShipInfo) (required : ℚ) (DE : DEFun),
      get_cii_rating (calculate_cii p.annualFuelConsumption p.distanceTraveled
        s.capacity p.fuelType) required ≠ "A" →
      (optimize_cii p s (some "E") required DE).targetCII =
        round2 (required * 0.88)) := by
  constructor
  · intro r _
    rfl
  · intro p s r DE hA
    rw [optimize_cii_of_rating_ne_A p s (some "E") r DE hA]
    rfl

theorem target_rating_E_defaults_to_A_witness :
    get_target_cii_for_rating 7 "E" = 7 * 0.88 ∧
    (optimize_cii ⟨1, 1, "HFO"⟩ ⟨"Bulk Carrier", 1, 2025⟩ (some "E") 1
        deLowFuelHighDist).targetCII = round2 (1 * 0.88) := by
  have hE : get_cii_rating (calculate_cii 1 1 1 "HFO") 1 = "E" := by
    norm_num [calculate_cii, CO2_FACTORS, get_cii_rating]
  refine ⟨target_rating_E_defaults_to_A.1 7 (by norm_num), ?_⟩
  exact target_rating_E_defaults_to_A.2 ⟨1, 1, "HFO"⟩ ⟨"Bulk Carrier", 1, 2025⟩ 1
    deLowFuelHighDist (by rw [hE]; decide)

theorem round2_le_of_le {x b : ℚ} (h : x ≤ b) : round2 x ≤ b + 1/200 := by
  have ha := abs_le.mp (round2_sub_abs_le x)
  linarith [ha.1, ha.2]

theorem le_round2_of_le {x b : ℚ} (h : b ≤ x) : b - 1/200 ≤ round2 x := by
  have ha := abs_le.mp (round2_sub_abs_le x)
  linarith [ha.1, ha.2]

theorem searchDE_bounds (p : OperationalParams) (s : ShipInfo) (tgt : String)
    (required : ℚ) (DE : DEFun) (hDE : DERespectsBounds DE)
    (hf : 0 ≤ p.annualFuelConsumption) (hd : 0 ≤ p.distanceTraveled) :
    p.annualFuelConsumption * 0.7 ≤ (searchDE p s tgt required DE).x1 ∧
    (searchDE p s tgt required DE).x1 ≤ p.annualFuelConsumption * 1.0 ∧
    p.distanceTraveled * 0.8 ≤ (searchDE p s tgt required DE).x2 ∧
    (searchDE p s tgt required DE).x2 ≤ p.distanceTraveled * 1.2 := by
  have hb := hDE deConfig
    (objective s.capacity (get_target_cii_for_rating required tgt) p.fuelType)
    ((p.annualFuelConsumption * 0.7, p.annualFuelConsumption * 1.0),
     (p.distanceTraveled * 0.8, p.distanceTraveled * 1.2))
    (mul_le_mul_of_nonneg_left (by norm_num) hf)
    (mul_le_mul_of_nonneg_left (by norm_num) hd)
  exact hb

theorem searchPathResult_fuelValue (p : OperationalParams) (s : ShipInfo)
    (cii : CIIVal) (cur tgt : String) (required : ℚ) (DE : DEFun) :
    (searchPathResult p s cii cur tgt required DE).optimizedParams.annualFuelConsumption =
      round2 (searchDE p s tgt required DE).x1 := rfl

theorem searchPathResult_distValue (p : OperationalParams) (s : ShipInfo)
    (cii : CIIVal) (cur tgt : String) (required : ℚ) (DE : DEFun) :
    (searchPathResult p s cii cur tgt required DE).optimizedParams.distanceTraveled =
      round2 (searchDE p s tgt required DE).x2 := rfl

/-- C3: whenever the current rating is A, optimize_cii short-circuits: the
returned optimizedParams are exactly the input currentParams, the
recommendations list is empty, the targetRating is A, the targetCII is 0.88
times the required CII rounded to two decimals, and the search procedure is
never consulted (any other search procedure gives the identical result). -/
theorem already_A_short_circuit (p : OperationalParams) (s : ShipInfo)
    (t : Option String) (required : ℚ) (DE : DEFun)
    (hA : get_cii_rating (calculate_cii p.annualFuelConsumption
      p.distanceTraveled s.capacity p.fuelType) required = "A") :
    (optimize_cii p s t required DE).optimizedParams = p ∧
    (optimize_cii p s t required DE).recommendations = [] ∧
    (optimize_cii p s t required DE).targetRating = "A" ∧
    (optimize_cii p s t required DE).targetCII = round2 (required * 0.88) ∧
    ∀ DE' : DEFun, optimize_cii p s t required DE = optimize_cii p s t required DE' := by
  have h := optimize_cii_of_rating_A p s t required DE hA
  refine ⟨by rw [h]; rfl, by rw [h]; rfl, by rw [h]; rfl, by rw [h]; rfl, ?_⟩
  · intro DE'
    rw [h, optimize_cii_of_rating_A p s t required DE' hA]

theorem already_A_short_circuit_witness :
    (optimize_cii ⟨0, 1, "HFO"⟩ ⟨"Bulk Carrier", 1, 2025⟩ none 1
        deLowFuelHighDist).optimizedParams = ⟨0, 1, "HFO"⟩ ∧
    (optimize_cii ⟨0, 1, "HFO"⟩ ⟨"Bulk Carrier", 1, 2025⟩ none 1
        deLowFuelHighDist).recommendations = [] ∧
    (optimize_cii ⟨0, 1, "HFO"⟩ ⟨"Bulk Carrier", 1, 2025⟩ none 1
        deLowFuelHighDist).targetRating = "A" ∧
    (optimize_cii ⟨0, 1, "HFO"⟩ ⟨"Bulk Carrier", 1, 2025⟩ none 1
        deLowFuelHighDist).targetCII = round2 (1 * 0.88) := by
  have h := already_A_short_circuit ⟨0, 1, "HFO"⟩ ⟨"Bulk Carrier", 1, 2025⟩ none 1
    deLowFuelHighDist (by norm_num [calculate_cii, CO2_FACTORS, get_cii_rating])
  exact ⟨h.1, h.2.1, h.2.2.1, h.2.2.2.1⟩

/-- C2 counterexample: a bounds-respecting search output together with a
search-path request whose original distance, 10.005 nautical miles, has three
decimal places; the search returns the upper distance bound 12.006 and the
result's two-decimal rounding 12.01 exceeds 1.2 times the original distance,
so the returned optimizedParams violate the claimed distance interval. -/
theorem optimized_params_bounds_cex :
    DERespectsBounds deLowFuelHighDist ∧
    get_cii_rating (calculate_cii 100 (2001/200) 1 "HFO") 1 ≠ "A" ∧
    (2001/200 : ℚ) * 1.2 <
      (optimize_cii ⟨100, 2001/200, "HFO"⟩ ⟨"Bulk Carrier", 1, 2025⟩ none 1
        deLowFuelHighDist).optimizedParams.distanceTraveled := by
  have hE : get_cii_rating (calculate_cii 100 (2001/200) 1 "HFO") 1 = "E" := by
    norm_num [calculate_cii, CO2_FACTORS, get_cii_rating]
  have hA : get_cii_rating (calculate_cii 100 (2001/200) 1 "HFO") 1 ≠ "A" := by
    rw [hE]
    decide
  refine ⟨deLowFuelHighDist_respects, hA, ?_⟩
  rw [optimize_cii_of_rating_ne_A ⟨100, 2001/200, "HFO"⟩ ⟨"Bulk Carrier", 1, 2025⟩
    none 1 deLowFuelHighDist hA, searchPathResult_distValue]
  show (2001/200 : ℚ) * 1.2 < round2 ((2001/200 : ℚ) * 1.2)
  norm_num [round2, roundHalfEven]

/-- C2 amended: on the search path, for any bounds-respecting search
procedure, the pre-rounding optimized point lies inside the operational
bounds (fuel at most the original, distance within 20 percent), and the
returned two-decimal-rounded optimizedParams satisfy those bounds up to the
half-cent rounding tolerance 1/200: rounding can push the returned value at
most 0.005 past a bound, as the counterexample shows it sometimes does. -/
theorem optimized_params_bounds_amended (DE : DEFun) (p : OperationalParams)
    (s : ShipInfo) (t : Option String) (required : ℚ)
    (hDE : DERespectsBounds DE)
    (hf : 0 ≤ p.annualFuelConsumption) (hd : 0 ≤ p.distanceTraveled)
    (hA : get_cii_rating (calculate_cii p.annualFuelConsumption
      p.distanceTraveled s.capacity p.fuelType) required ≠ "A") :
    (optimize_cii p s t required DE).optimizedParams.annualFuelConsumption ≤
      p.annualFuelConsumption + 1/200 ∧
    p.distanceTraveled * 0.8 - 1/200 ≤
      (optimize_cii p s t required DE).optimizedParams.distanceTraveled ∧
    (optimize_cii p s t required DE).optimizedParams.distanceTraveled ≤
      p.distanceTraveled * 1.2 + 1/200 := by
  rw [optimize_cii_of_rating_ne_A p s t required DE hA,
    searchPathResult_fuelValue, searchPathResult_distValue]
  obtain ⟨hb1, hb2, hb3, hb4⟩ := searchDE_bounds p s
    (resolveTargetRating t
      (get_cii_rating (calculate_cii p.annualFuelConsumption p.distanceTraveled
        s.capacity p.fuelType) required))
    required DE hDE hf hd
  have hone : p.annualFuelConsumption * 1.0 = p.annualFuelConsumption := by
    norm_num
  exact ⟨round2_le_of_le (le_of_le_of_eq hb2 hone), le_round2_of_le hb3,
    round2_le_of_le hb4⟩

theorem optimized_params_bounds_amended_witness :
    (optimize_cii ⟨100, 2001/200, "HFO"⟩ ⟨"Bulk Carrier", 1, 2025⟩ none 1
        deLowFuelHighDist).optimizedParams.annualFuelConsumption ≤
      100 + 1/200 ∧
    (2001/200 : ℚ) * 0.8 - 1/200 ≤
      (optimize_cii ⟨100, 2001/200, "HFO"⟩ ⟨"Bulk Carrier", 1, 2025⟩ none 1
        deLowFuelHighDist).optimizedParams.distanceTraveled ∧
    (optimize_cii ⟨100, 2001/200, "HFO"⟩ ⟨"Bulk Carrier", 1, 2025⟩ none 1
        deLowFuelHighDist).optimizedParams.distanceTraveled ≤
      (2001/200 : ℚ) * 1.2 + 1/200 := by
  have hE : get_cii_rating (calculate_cii 100 (2001/200) 1 "HFO") 1 = "E" := by
    norm_num [calculate_cii, CO2_FACTORS, get_cii_rating]
  exact optimized_params_bounds_amended deLowFuelHighDist ⟨100, 2001/200, "HFO"⟩
    ⟨"Bulk Carrier", 1, 2025⟩ none 1 deLowFuelHighDist_respects (by norm_num)
    (by norm_num) (by rw [hE]; decide)

theorem calculate_cii_fin (fuel_consumption distance capacity : ℚ)
    (fuel_type : String) (h : capacity * distance ≠ 0) :
    calculate_cii fuel_consumption distance capacity fuel_type =
      .fin (fuel_consumption * ((CO2_FACTORS fuel_type).getD 3.114) /
        (capacity * distance) * 1000000) := by
  simp only [calculate_cii, if_neg h]

theorem searchPathResult_recommendations (p : OperationalParams) (s : ShipInfo)
    (cii : CIIVal) (cur tgt : String) (required : ℚ) (DE : DEFun) :
    (searchPathResult p s cii cur tgt required DE).recommendations =
      searchRecommendations p s.capacity required cur tgt
        (searchDE p s tgt required DE) := rfl

theorem searchPathResult_currentCII (p : OperationalParams) (s : ShipInfo)
    (cii : CIIVal) (cur tgt : String) (required : ℚ) (DE : DEFun) :
    (searchPathResult p s cii cur tgt required DE).currentCII = cii.round2v := rfl

theorem searchPathResult_targetCII (p : OperationalParams) (s : ShipInfo)
    (cii : CIIVal) (cur tgt : String) (required : ℚ) (DE : DEFun) :
    (searchPathResult p s cii cur tgt required DE).targetCII =
      round2 (get_target_cii_for_rating required tgt) := rfl

theorem searchPathResult_optimizedCII (p : OperationalParams) (s : ShipInfo)
    (cii : CIIVal) (cur tgt : String) (required : ℚ) (DE : DEFun) :
    (searchPathResult p s cii cur tgt required DE).optimizedCII =
      some ((calculate_cii (searchDE p s tgt required DE).x1
        (searchDE p s tgt required DE).x2 s.capacity p.fuelType).round2v) := rfl

theorem searchPathResult_requiredCII (p : OperationalParams) (s : ShipInfo)
    (cii : CIIVal) (cur tgt : String) (required : ℚ) (DE : DEFun) :
    (searchPathResult p s cii cur tgt required DE).requiredCII =
      some (round2 required) := rfl

/-- C5 counterexample: a request already rated A returns success true, yet
the short-circuit result carries no achievedRating, optimizedCII or
requiredCII fields, so a success result need not contain all seven claimed
fields. -/
theorem result_fields_cex :
    (optimize_cii ⟨0, 1, "HFO"⟩ ⟨"Bulk Carrier", 1, 2025⟩ none 1
        deLowFuelHighDist).success = true ∧
    (optimize_cii ⟨0, 1, "HFO"⟩ ⟨"Bulk Carrier", 1, 2025⟩ none 1
        deLowFuelHighDist).achievedRating = none ∧
    (optimize_cii ⟨0, 1, "HFO"⟩ ⟨"Bulk Carrier", 1, 2025⟩ none 1
        deLowFuelHighDist).optimizedCII = none ∧
    (optimize_cii ⟨0, 1, "HFO"⟩ ⟨"Bulk Carrier", 1, 2025⟩ none 1
        deLowFuelHighDist).requiredCII = none := by
  have hA : get_cii_rating (calculate_cii 0 1 1 "HFO") 1 = "A" := by
    norm_num [calculate_cii, CO2_FACTORS, get_cii_rating]
  have h := optimize_cii_of_rating_A ⟨0, 1, "HFO"⟩ ⟨"Bulk Carrier", 1, 2025⟩
    none 1 deLowFuelHighDist hA
  rw [h]
  exact ⟨rfl, rfl, rfl, rfl⟩

/-- C5 amended: every search-path result (current rating not A, positive
capacity and distance, bounds-respecting search) contains achievedRating,
currentCII, targetCII, optimizedCII and requiredCII, the four CII numbers
being two-decimal values; the short-circuit A result (see the
counterexample) instead omits achievedRating, optimizedCII and requiredCII
while still carrying two-decimal currentCII and targetCII. -/
theorem result_fields_amended (DE : DEFun) (p : OperationalParams)
    (s : ShipInfo) (t : Option String) (required : ℚ)
    (hDE : DERespectsBounds DE) (hc : 0 < s.capacity)
    (hf : 0 ≤ p.annualFuelConsumption) (hd : 0 < p.distanceTraveled)
    (hA : get_cii_rating (calculate_cii p.annualFuelConsumption
      p.distanceTraveled s.capacity p.fuelType) required ≠ "A") :
    (optimize_cii p s t required DE).achievedRating.isSome = true ∧
    (∃ q : ℚ, (optimize_cii p s t required DE).currentCII = .fin q ∧
      IsTwoDecimal q) ∧
    IsTwoDecimal (optimize_cii p s t required DE).targetCII ∧
    (∃ q : ℚ, (optimize_cii p s t required DE).optimizedCII =
      some (.fin q) ∧ IsTwoDecimal q) ∧
    (∃ q : ℚ, (optimize_cii p s t required DE).requiredCII = some q ∧
      IsTwoDecimal q) := by
  rw [optimize_cii_of_rating_ne_A p s t required DE hA]
  have htw : s.capacity * p.distanceTraveled ≠ 0 := (mul_pos hc hd).ne'
  refine ⟨rfl, ?_, ?_, ?_, ?_⟩
  · rw [searchPathResult_currentCII, calculate_cii_fin _ _ _ _ htw]
    exact ⟨_, rfl, round2_isTwoDecimal _⟩
  · rw [searchPathResult_targetCII]
    exact round2_isTwoDecimal _
  · obtain ⟨hb1, hb2, hb3, hb4⟩ := searchDE_bounds p s
      (resolveTargetRating t
        (get_cii_rating (calculate_cii p.annualFuelConsumption
          p.distanceTraveled s.capacity p.fuelType) required))
      required DE hDE hf hd.le
    have hx2 : 0 < (searchDE p s
        (resolveTargetRating t
          (get_cii_rating (calculate_cii p.annualFuelConsumption
            p.distanceTraveled s.capacity p.fuelType) required))
        required DE).x2 :=
      lt_of_lt_of_le (mul_pos hd (by norm_num)) hb3
    have htw2 : s.capacity * (searchDE p s
        (resolveTargetRating t
          (get_cii_rating (calculate_cii p.annualFuelConsumption
            p.distanceTraveled s.capacity p.fuelType) required))
        required DE).x2 ≠ 0 := (mul_pos hc hx2).ne'
    rw [searchPathResult_optimizedCII, calculate_cii_fin _ _ _ _ htw2]
    exact ⟨_, rfl, round2_isTwoDecimal _⟩
  · rw [searchPathResult_requiredCII]
    exact ⟨_, rfl, round2_isTwoDecimal _⟩

theorem result_fields_amended_witness :
    (optimize_cii ⟨1, 1, "HFO"⟩ ⟨"Bulk Carrier", 1, 2025⟩ none 1
        deLowFuelHighDist).achievedRating.isSome = true ∧
    (∃ q : ℚ, (optimize_cii ⟨1, 1, "HFO"⟩ ⟨"Bulk Carrier", 1, 2025⟩ none 1
        deLowFuelHighDist).currentCII = .fin q ∧ IsTwoDecimal q) ∧
    IsTwoDecimal (optimize_cii ⟨1, 1, "HFO"⟩ ⟨"Bulk Carrier", 1, 2025⟩ none 1
        deLowFuelHighDist).targetCII ∧
    (∃ q : ℚ, (optimize_cii ⟨1, 1, "HFO"⟩ ⟨"Bulk Carrier", 1, 2025⟩ none 1
        deLowFuelHighDist).optimizedCII = some (.fin q) ∧ IsTwoDecimal q) ∧
    (∃ q : ℚ, (optimize_cii ⟨1, 1, "HFO"⟩ ⟨"Bulk Carrier", 1, 2025⟩ none 1
        deLowFuelHighDist).requiredCII = some q ∧ IsTwoDecimal q) := by
  have hE : get_cii_rating (calculate_cii 1 1 1 "HFO") 1 = "E" := by
    norm_num [calculate_cii, CO2_FACTORS, get_cii_rating]
  exact result_fields_amended deLowFuelHighDist ⟨1, 1, "HFO"⟩
    ⟨"Bulk Carrier", 1, 2025⟩ none 1 deLowFuelHighDist_respects (by norm_num)
    (by norm_num) (by norm_num) (by rw [hE]; decide)

theorem runA_current : calculate_cii 1 1 1 "HFO" = .fin 3114000 := by
  rw [calculate_cii_fin 1 1 1 "HFO" (by norm_num)]
  norm_num [CO2_FACTORS]

theorem runA_rating : get_cii_rating (.fin 3114000) 1000000 = "E" := by
  norm_num [get_cii_rating]

theorem runA_de :
    searchDE ⟨1, 1, "HFO"⟩ ⟨"Bulk Carrier", 1, 2025⟩ "D" 1000000
      deLowFuelHighDist = ⟨7/10, 6/5, true⟩ := by
  show DEResult.mk ((1 : ℚ) * 0.7) ((1 : ℚ) * 1.2) true = DEResult.mk (7/10) (6/5) true
  norm_num

theorem runA_ocii : calculate_cii (7/10) (6/5) 1 "HFO" = .fin 1816500 := by
  rw [calculate_cii_fin _ _ _ _ (by norm_num)]
  norm_num [CO2_FACTORS]

theorem runA_lng : calculate_cii (7/10) (6/5) 1 "LNG" = .fin (4812500/3) := by
  rw [calculate_cii_fin _ _ _ _ (by norm_num)]
  norm_num [CO2_FACTORS]

theorem runA_meth :
    calculate_cii (7/10) (6/5) 1 "Methanol" = .fin (2406250/3) := by
  rw [calculate_cii_fin _ _ _ _ (by norm_num)]
  norm_num [CO2_FACTORS]

theorem runA_lng_rating : get_cii_rating (.fin (4812500/3)) 1000000 = "E" := by
  norm_num [get_cii_rating]

theorem runA_meth_rating : get_cii_rating (.fin (2406250/3)) 1000000 = "A" := by
  norm_num [get_cii_rating]

theorem runA_q_lng :
    altQualifies (7/10) (6/5) 1 1000000 "E" "D" (.fin 1816500) "LNG" = false := by
  simp only [altQualifies]
  rw [runA_lng, runA_lng_rating]
  decide

theorem runA_q_meth :
    altQualifies (7/10) (6/5) 1 1000000 "E" "D" (.fin 1816500) "Methanol" = true := by
  simp only [altQualifies]
  rw [runA_meth, runA_meth_rating]
  decide

theorem runA_entry_meth :
    altEntry (7/10) (6/5) 1 1000000 "Methanol" =
      ⟨"Methanol", .fin (80208333/100), "A"⟩ := by
  simp only [altEntry]
  rw [runA_meth, runA_meth_rating]
  simp only [CIIVal.round2v, AltFuel.mk.injEq]
  norm_num [round2, roundHalfEven]

theorem runA_alts :
    alternative_fuels (7/10) (6/5) 1 1000000 "E" "D" (.fin 1816500) =
      [⟨"Methanol", .fin (80208333/100), "A"⟩] := by
  simp only [alternative_fuels, candidate_fuels, List.filter_cons,
    List.filter_nil, runA_q_lng, runA_q_meth]
  simp [runA_entry_meth]

theorem runA_recs :
    searchRecommendations ⟨1, 1, "HFO"⟩ 1 1000000 "E" "D" ⟨7/10, 6/5, true⟩ =
      [fuelReductionRec 1 (7/10), distanceIncreaseRec 1 (6/5),
       fuelSwitchingRec [⟨"Methanol", .fin (80208333/100), "A"⟩]] := by
  simp only [searchRecommendations]
  norm_num [runA_ocii, runA_alts, high_carbon_fuels]

theorem altEntry_fuel (a b c d : ℚ) (ft : String) :
    (altEntry a b c d ft).fuel = ft := rfl

theorem ammonia_not_in_alternatives (of od cap req : ℚ) (cur tgt : String)
    (ocii : CIIVal) :
    "Ammonia" ∉ (alternative_fuels of od cap req cur tgt ocii).map
      AltFuel.fuel := by
  intro h
  rw [alternative_fuels, List.map_map] at h
  obtain ⟨x, hx, hfx⟩ := List.mem_map.mp h
  have hxe : x = "Ammonia" := hfx
  have hx' : x ∈ candidate_fuels := (List.mem_filter.mp hx).1
  rw [hxe] at hx'
  exact absurd hx' (by decide)

/-- C4 counterexample: a run with high-carbon current fuel HFO in which the
fuel-switching evaluation produces a non-empty qualifying set, yet Ammonia
appears nowhere among the alternatives of any recommendation, because the
candidate list of the evaluation is only LNG and Methanol. -/
theorem ammonia_cex :
    ("HFO" : String) ∈ high_carbon_fuels ∧
    (∃ rc ∈ (optimize_cii ⟨1, 1, "HFO"⟩ ⟨"Bulk Carrier", 1, 2025⟩ none 1000000
        deLowFuelHighDist).recommendations,
      rc.type = "fuel_switching" ∧ rc.alternatives ≠ []) ∧
    (optimize_cii ⟨1, 1, "HFO"⟩ ⟨"Bulk Carrier", 1, 2025⟩ none 1000000
        deLowFuelHighDist).recommendations.all
      (fun rc => rc.alternatives.all (fun a => a.fuel != "Ammonia")) = true := by
  have hne : get_cii_rating (calculate_cii 1 1 1 "HFO") 1000000 ≠ "A" := by
    rw [runA_current, runA_rating]
    decide
  have h := optimize_cii_of_rating_ne_A ⟨1, 1, "HFO"⟩ ⟨"Bulk Carrier", 1, 2025⟩
    none 1000000 deLowFuelHighDist hne
  rw [h, searchPathResult_recommendations]
  dsimp only
  rw [runA_current, runA_rating]
  rw [show resolveTargetRating none "E" = "D" from rfl, runA_de, runA_recs]
  refine ⟨by decide, ⟨fuelSwitchingRec [⟨"Methanol", .fin (80208333/100), "A"⟩],
    by simp, rfl, by decide⟩, by decide⟩

/-- C4 amended: at any fixed optimized point with capacity and distance above
0 and required CII above 0, substituting Ammonia (CO2 factor 0) yields
calculate_cii equal to fin 0 and rating A; however the fuel-switching
evaluation considers only the candidates LNG and Methanol, so Ammonia never
appears among the qualifying alternatives (see the counterexample). -/
theorem ammonia_zero_cii_amended :
    (∀ fuel distance capacity required : ℚ, 0 < capacity → 0 < distance →
      0 < required →
      calculate_cii fuel distance capacity "Ammonia" = .fin 0 ∧
      get_cii_rating (calculate_cii fuel distance capacity "Ammonia")
        required = "A") ∧
    (∀ (of od cap req : ℚ) (cur tgt : String) (ocii : CIIVal),
      "Ammonia" ∉ (alternative_fuels of od cap req cur tgt ocii).map
        AltFuel.fuel) := by
  constructor
  · intro f d c r hc hd _
    have htw : c * d ≠ 0 := (mul_pos hc hd).ne'
    have h0 : calculate_cii f d c "Ammonia" = .fin 0 := by
      rw [calculate_cii_fin f d c "Ammonia" htw]
      norm_num [CO2_FACTORS]
    refine ⟨h0, ?_⟩
    rw [h0]
    norm_num [get_cii_rating]
  · exact ammonia_not_in_alternatives

theorem ammonia_zero_cii_amended_witness :
    (calculate_cii 5 2 3 "Ammonia" = .fin 0 ∧
      get_cii_rating (calculate_cii 5 2 3 "Ammonia") 4 = "A") ∧
    "Ammonia" ∉ (alternative_fuels 1 1 1 1 "E" "D" (.fin 1)).map AltFuel.fuel :=
  ⟨ammonia_zero_cii_amended.1 5 2 3 4 (by norm_num) (by norm_num) (by norm_num),
   ammonia_zero_cii_amended.2 1 1 1 1 "E" "D" (.fin 1)⟩

theorem searchRecommendations_filter_switching (p : OperationalParams)
    (cap required : ℚ) (cur tgt : String) (de : DEResult) :
    (searchRecommendations p cap required cur tgt de).filter
        (fun rc => rc.type == "fuel_switching") =
      if p.fuelType ∈ high_carbon_fuels ∧
          alternative_fuels de.x1 de.x2 cap required cur tgt
            (calculate_cii de.x1 de.x2 cap p.fuelType) ≠ [] then
        [fuelSwitchingRec (alternative_fuels de.x1 de.x2 cap required cur tgt
          (calculate_cii de.x1 de.x2 cap p.fuelType))]
      else [] := by
  simp only [searchRecommendations]
  rw [List.filter_append, List.filter_append]
  have e1 : (if 1 < (p.annualFuelConsumption - de.x1) /
        p.annualFuelConsumption * 100
      then [fuelReductionRec p.annualFuelConsumption de.x1] else []).filter
      (fun rc => rc.type == "fuel_switching") = [] := by
    split_ifs <;> rfl
  have e2 : (if 1 < |(de.x2 - p.distanceTraveled) / p.distanceTraveled * 100|
      then if 0 < (de.x2 - p.distanceTraveled) / p.distanceTraveled * 100
        then [distanceIncreaseRec p.distanceTraveled de.x2]
        else [distanceReductionRec p.distanceTraveled de.x2]
      else []).filter (fun rc => rc.type == "fuel_switching") = [] := by
    split_ifs <;> rfl
  rw [e1, e2]
  simp only [List.nil_append]
  by_cases hm : p.fuelType ∈ high_carbon_fuels
  · rw [if_pos hm]
    by_cases he : alternative_fuels de.x1 de.x2 cap required cur tgt
        (calculate_cii de.x1 de.x2 cap p.fuelType) = []
    · rw [if_pos he, if_neg (fun hand => hand.2 he)]
      rfl
    · rw [if_neg he, if_pos ⟨hm, he⟩]
      rfl
  · rw [if_neg hm, if_pos rfl, if_neg (fun hand => hm hand.1)]
    rfl

theorem mem_alternative_fuels_iff (of od cap req : ℚ) (cur tgt : String)
    (ocii : CIIVal)
    (hcur : cur ∈ (["A", "B", "C", "D", "E"] : List String)) (ft : String) :
    altEntry of od cap req ft ∈ alternative_fuels of od cap req cur tgt ocii ↔
      ft ∈ candidate_fuels ∧
        (ratingIdx (get_cii_rating (calculate_cii of od cap ft) req) <
            ratingIdx cur ∨
          (get_cii_rating (calculate_cii of od cap ft) req = tgt ∧
            (calculate_cii of od cap ft).ltb ocii = true)) := by
  have halt := get_cii_rating_mem_letters (calculate_cii of od cap ft) req
  rw [alternative_fuels]
  constructor
  · intro h
    obtain ⟨x, hx, hfx⟩ := List.mem_map.mp h
    have hxe : x = ft := congrArg AltFuel.fuel hfx
    rw [hxe] at hx
    obtain ⟨hmem, hq⟩ := List.mem_filter.mp hx
    refine ⟨hmem, ?_⟩
    simp only [altQualifies] at hq
    rw [Bool.or_eq_true, Bool.and_eq_true] at hq
    rcases hq with h1 | ⟨hb1, hb2⟩
    · exact Or.inl ((pyStrLt_iff_ratingIdx _ halt _ hcur).mp h1)
    · exact Or.inr ⟨eq_of_beq hb1, hb2⟩
  · intro h
    obtain ⟨hmem, hcond⟩ := h
    refine List.mem_map.mpr ⟨ft, List.mem_filter.mpr ⟨hmem, ?_⟩, rfl⟩
    simp only [altQualifies]
    rw [Bool.or_eq_true, Bool.and_eq_true]
    rcases hcond with h1 | h2
    · exact Or.inl ((pyStrLt_iff_ratingIdx _ halt _ hcur).mpr h1)
    · exact Or.inr ⟨beq_of_eq h2.1, h2.2⟩

/-- C8: on the search path the alternative-fuel evaluation runs only when
the current fuelType is HFO, MDO or MGO, in which case the recommendations
carry exactly one fuel_switching entry exactly when the qualifying set is
non-empty, bundling that set; and a candidate (LNG or Methanol), evaluated
at the optimized point, is included if and only if its rating letter is
strictly earlier in the sequence A to E than the current pre-optimization
rating, or its rating equals the resolved target rating and its CII is lower
than the optimized CII without switching. -/
theorem fuel_switching_evaluation (p : OperationalParams) (s : ShipInfo)
    (t : Option String) (required : ℚ) (DE : DEFun)
    (current_rating target : String) (de : DEResult) (optimized_cii : CIIVal)
    (alts : List AltFuel)
    (hcur : current_rating = get_cii_rating (calculate_cii
      p.annualFuelConsumption p.distanceTraveled s.capacity p.fuelType)
      required)
    (hA : current_rating ≠ "A")
    (htgt : target = resolveTargetRating t current_rating)
    (hde : de = searchDE p s target required DE)
    (hocii : optimized_cii = calculate_cii de.x1 de.x2 s.capacity p.fuelType)
    (halts : alts = alternative_fuels de.x1 de.x2 s.capacity required
      current_rating target optimized_cii) :
    ((optimize_cii p s t required DE).recommendations.filter
        (fun rc => rc.type == "fuel_switching") =
      if p.fuelType ∈ high_carbon_fuels ∧ alts ≠ [] then [fuelSwitchingRec alts]
      else []) ∧
    (∀ ft : String,
      altEntry de.x1 de.x2 s.capacity required ft ∈ alts ↔
        ft ∈ candidate_fuels ∧
          (ratingIdx (get_cii_rating (calculate_cii de.x1 de.x2 s.capacity ft)
              required) < ratingIdx current_rating ∨
            (get_cii_rating (calculate_cii de.x1 de.x2 s.capacity ft)
                required = target ∧
              (calculate_cii de.x1 de.x2 s.capacity ft).ltb optimized_cii =
                true))) := by
  subst halts hocii hde htgt hcur
  constructor
  · rw [optimize_cii_of_rating_ne_A p s t required DE hA,
      searchPathResult_recommendations]
    exact searchRecommendations_filter_switching p s.capacity required _ _ _
  · intro ft
    exact mem_alternative_fuels_iff _ _ _ _ _ _ _
      (get_cii_rating_mem_letters _ _) ft

theorem fuel_switching_evaluation_witness :
    ((optimize_cii ⟨1, 1, "HFO"⟩ ⟨"Bulk Carrier", 1, 2025⟩ none 1000000
        deLowFuelHighDist).recommendations.filter
        (fun rc => rc.type == "fuel_switching") =
      if ("HFO" : String) ∈ high_carbon_fuels ∧
          ([⟨"Methanol", .fin (80208333/100), "A"⟩] : List AltFuel) ≠ [] then
        [fuelSwitchingRec [⟨"Methanol", .fin (80208333/100), "A"⟩]]
      else []) ∧
    (altEntry (7/10) (6/5) 1 1000000 "Methanol" ∈
        ([⟨"Methanol", .fin (80208333/100), "A"⟩] : List AltFuel) ↔
      ("Methanol" : String) ∈ candidate_fuels ∧
        (ratingIdx (get_cii_rating (calculate_cii (7/10) (6/5) 1 "Methanol")
            1000000) < ratingIdx "E" ∨
          (get_cii_rating (calculate_cii (7/10) (6/5) 1 "Methanol") 1000000 =
              "D" ∧
            (calculate_cii (7/10) (6/5) 1 "Methanol").ltb (.fin 1816500) =
              true))) := by
  have h := fuel_switching_evaluation ⟨1, 1, "HFO"⟩ ⟨"Bulk Carrier", 1, 2025⟩
    none 1000000 deLowFuelHighDist "E" "D" ⟨7/10, 6/5, true⟩ (.fin 1816500)
    [⟨"Methanol", .fin (80208333/100), "A"⟩]
    (by rw [runA_current]; exact runA_rating.symm) (by decide) rfl
    runA_de.symm runA_ocii.symm runA_alts.symm
  exact ⟨h.1, h.2 "Methanol"⟩
